import Mathlib

/-!
Verification development for the sandbox backend core of the repository
(`sandbox_cli`): a shallow embedding in Lean 4 of the tmux (terminal) backend,
the OrbStack (container) backend and the backend factory, together with
theorems settling the specification claims about them.

Source files embedded:
  * `sandbox_cli/src/backends/tmux/backend.py`  (class `TmuxBackend`)
  * `sandbox_cli/src/backends/orbstack/backend.py`  (class `OrbStackBackend`)
  * `sandbox_cli/src/backends/factory.py`  (class `BackendFactory`)
  * `sandbox_cli/src/backends/base.py`  (data classes)

Machine-level aspects below the abstraction of the Python code (operating
system failures such as permissions or disk-full, process scheduling,
the raw tar byte format, terminal echo) are not modelled; every modelled
function mirrors the corresponding Python statement by statement, as noted in
each doc comment.
-/

namespace SandboxModel

/-! ## Basic string utilities mirroring Python primitives

Python `str` values are embedded as Lean `String`; most functions work on the
underlying `List Char`, which corresponds to Python's sequence-of-code-points
view of `str`. -/

/-- ASCII whitespace test, mirroring the characters Python's `str.strip()` and
`str.split()` treat as whitespace for ASCII text (space, tab, newline,
carriage return, vertical tab, form feed).  Non-ASCII Unicode whitespace is
not modelled. -/
def isWsCh (c : Char) : Bool :=
  c == ' ' || c == '\t' || c == '\n' || c == '\r' || c == '\x0b' || c == '\x0c'

/-- `stripL l` mirrors Python `str.strip()` on the character list `l`:
leading and trailing whitespace removed. -/
def stripL (l : List Char) : List Char :=
  ((l.dropWhile isWsCh).reverse.dropWhile isWsCh).reverse

/-- Python `s.strip()`. -/
def pyStrip (s : String) : String := ⟨stripL s.data⟩

/-- `isInit pat l` is true iff `pat` is an initial segment of `l`
(Python `l.startswith(pat)`). -/
def isInit (pat : List Char) (l : List Char) : Bool :=
  match pat, l with
  | [], _ => true
  | _ :: _, [] => false
  | p :: ps, c :: cs => p == c && isInit ps cs

/-- Python `s.startswith(pat)` on strings. -/
def strStarts (pat s : String) : Bool := isInit pat.data s.data

/-- Drop the first `n` characters of a string (Python slice `s[n:]`). -/
def strDropL (s : String) (n : Nat) : String := ⟨s.data.drop n⟩

/-- `breakAt sep l` finds the first occurrence of `sep` in `l` (Python
leftmost-match semantics as used by `str.split` and the `in` operator) and
returns the text before it and the text after it; `none` when `sep` does not
occur.  An empty `sep` matches immediately, like Python's `in`. -/
def breakAt (sep : List Char) : List Char → Option (List Char × List Char)
  | [] => if sep = [] then some ([], []) else none
  | c :: rest =>
    if isInit sep (c :: rest) then some ([], (c :: rest).drop sep.length)
    else
      match breakAt sep rest with
      | some (pre, post) => some (c :: pre, post)
      | none => none

/-- Python `sep in l` substring test. -/
def hasSub (sep l : List Char) : Bool := (breakAt sep l).isSome

/-- `parts[0]` of Python `l.split(sep)`: the text before the first occurrence
of `sep`, or all of `l` when `sep` does not occur. -/
def part0 (l sep : List Char) : List Char :=
  match breakAt sep l with
  | some (pre, _) => pre
  | none => l

/-- `parts[1]` of Python `l.split(sep)`: the text strictly between the first
and the second occurrence of `sep` (or everything after the first occurrence
when there is no second one).  Only meaningful when `sep` occurs in `l`,
which is how `TmuxBackend.run_command` uses it. -/
def part1 (l sep : List Char) : List Char :=
  match breakAt sep l with
  | some (_, post) =>
    match breakAt sep post with
    | some (pre2, _) => pre2
    | none => post
  | none => []

/-- First token of Python `s.split()` (split on whitespace runs, empties
dropped): `none` mirrors the `IndexError` of `split()[0]` on an all-whitespace
or empty string. -/
def firstTok (l : List Char) : Option (List Char) :=
  let m := l.dropWhile isWsCh
  if m = [] then none else some (m.takeWhile (fun c => !(isWsCh c)))

/-- Whitespace split with fuel (Python `s.split()`), used for
`command.split()` in the container backend's non-shell mode. -/
def splitWsFuel : Nat → List Char → List (List Char)
  | 0, _ => []
  | fuel + 1, l =>
    let m := l.dropWhile isWsCh
    match m with
    | [] => []
    | _ :: _ => m.takeWhile (fun c => !(isWsCh c)) ::
        splitWsFuel fuel (m.dropWhile (fun c => !(isWsCh c)))

/-- Python `command.split()` on a string. -/
def pySplitWs (s : String) : List String :=
  (splitWsFuel s.data.length s.data).map String.mk

/-- Digit-with-underscore body of a Python integer literal accepted by
`int(str)`: one or more digits, with single underscores allowed between
digits (PEP 515). -/
def vud : List Char → Bool
  | [] => false
  | [c] => c.isDigit
  | c :: '_' :: rest => c.isDigit && vud rest
  | c :: d :: rest => c.isDigit && vud (d :: rest)

/-- Numeric value of a digit string, ignoring underscores. -/
def digitsVal (l : List Char) : Nat :=
  l.foldl (fun acc c => if c == '_' then acc else acc * 10 + (c.toNat - 48)) 0

/-- Python `int(s)` for ASCII decimal strings: strips whitespace, accepts an
optional sign, then underscore-separated digits; `none` mirrors `ValueError`.
(Non-ASCII digits accepted by CPython are not modelled.) -/
def pyInt (s : String) : Option Int :=
  match stripL s.data with
  | '+' :: rest => if vud rest then some (digitsVal rest) else none
  | '-' :: rest => if vud rest then some (-(digitsVal rest : Int)) else none
  | l => if vud l then some (digitsVal l) else none

/-- ASCII `str.lower()`, as applied to backend names by the factory. -/
def asciiLower (s : String) : String :=
  ⟨s.data.map (fun c => if 'A' ≤ c ∧ c ≤ 'Z' then Char.ofNat (c.toNat + 32) else c)⟩

/-! ### `os.path` primitives (POSIX flavour) -/

/-- Split a character list after the last `'/'`: returns the head (including
every trailing slash) and the tail, exactly as in CPython's
`posixpath.split`. -/
def splitLastSlash (l : List Char) : List Char × List Char :=
  let r := l.reverse
  (((r.dropWhile (fun c => c != '/')).reverse), ((r.takeWhile (fun c => c != '/')).reverse))

/-- Python `os.path.basename` (POSIX). -/
def pyBasename (s : String) : String := ⟨(splitLastSlash s.data).2⟩

/-- Python `os.path.dirname` (POSIX): the text up to the last `'/'`, with
trailing slashes stripped unless the head consists only of slashes. -/
def pyDirname (s : String) : String :=
  let h := (splitLastSlash s.data).1
  if h = [] then ""
  else if h.all (fun c => c == '/') then ⟨h⟩
  else ⟨(h.reverse.dropWhile (fun c => c == '/')).reverse⟩

/-- `pathlib` `/` join on POSIX paths, restricted to the cases the backend
exercises: an absolute right operand replaces the base (the `pathlib`
behaviour at the heart of claim C5), an empty right operand is a no-op, and
otherwise the two are joined with a separator. -/
def pathJoin (base rel : String) : String :=
  if strStarts "/" rel then rel
  else if rel = "" then base
  else base ++ "/" ++ rel

/-- The chain of ancestor directories of a path, outermost last:
`Path(p).parent`, `Path(p).parent.parent`, … computed by iterating
`pyDirname` to a fixed point (with fuel, since `pyDirname` is not
structurally decreasing in Lean's eyes). -/
def parentChainGo : Nat → String → List String
  | 0, _ => []
  | fuel + 1, q =>
    let d := pyDirname q
    if d = q then [] else d :: parentChainGo fuel d

/-- All ancestor directories of `p` (the directories
`Path(p).parent.mkdir(parents=True)` creates). -/
def parentChain (p : String) : List String := parentChainGo p.data.length p

/-- `isUnderDir ws p`: the path `p` is the directory `ws` itself or lies
underneath it (as unresolved path text). -/
def isUnderDir (ws p : String) : Bool := p == ws || isInit (ws ++ "/").data p.data

/-! ## UTF-8 codec

`Path.write_text` / `read_text`, `str.encode("utf-8")` and
`bytes.decode("utf-8")` in the source all use the UTF-8 codec; bytes are
embedded as `List Nat` (each element < 256 in real encodings). -/

/-- UTF-8 encoding of a single Unicode scalar value (`Char`), by size class. -/
def encodeChar (c : Char) : List Nat :=
  let n := c.toNat
  if n < 128 then [n]
  else if n < 2048 then [192 + n / 64, 128 + n % 64]
  else if n < 65536 then [224 + n / 4096, 128 + n / 64 % 64, 128 + n % 64]
  else [240 + n / 262144, 128 + n / 4096 % 64, 128 + n / 64 % 64, 128 + n % 64]

/-- UTF-8 encoding of a string (`str.encode("utf-8")`). -/
def strEncode (s : String) : List Nat := (s.data.map encodeChar).flatten

/-- Decode one UTF-8-encoded scalar value from the front of a byte list,
returning the character and the remaining bytes; `none` on malformed input. -/
def decodeOne : List Nat → Option (Char × List Nat)
  | [] => none
  | b :: rest =>
    if b < 128 then some (Char.ofNat b, rest)
    else if b < 192 then none
    else if b < 224 then
      match rest with
      | b2 :: r2 =>
        if 128 ≤ b2 ∧ b2 < 192 then
          some (Char.ofNat ((b - 192) * 64 + (b2 - 128)), r2)
        else none
      | [] => none
    else if b < 240 then
      match rest with
      | b2 :: b3 :: r3 =>
        if (128 ≤ b2 ∧ b2 < 192) ∧ (128 ≤ b3 ∧ b3 < 192) then
          some (Char.ofNat ((b - 224) * 4096 + (b2 - 128) * 64 + (b3 - 128)), r3)
        else none
      | _ => none
    else if b < 248 then
      match rest with
      | b2 :: b3 :: b4 :: r4 =>
        if (128 ≤ b2 ∧ b2 < 192) ∧ (128 ≤ b3 ∧ b3 < 192) ∧ (128 ≤ b4 ∧ b4 < 192) then
          some (Char.ofNat ((b - 240) * 262144 + (b2 - 128) * 4096 + (b3 - 128) * 64 + (b4 - 128)), r4)
        else none
      | _ => none
    else none

/-- Strict UTF-8 decoding of a whole byte list, with fuel (one unit per
decoded character; callers pass the list length, which always suffices since
every character consumes at least one byte).  `none` mirrors
`UnicodeDecodeError` of `bytes.decode("utf-8")`. -/
def decodeAllL : Nat → List Nat → Option (List Char)
  | _, [] => some []
  | 0, _ :: _ => none
  | fuel + 1, b :: rest =>
    match decodeOne (b :: rest) with
    | some (c, r) => (decodeAllL fuel r).map (c :: ·)
    | none => none

/-- `bytes.decode("utf-8")` (strict). -/
def strDecode (bs : List Nat) : Option String := (decodeAllL bs.length bs).map String.mk

/-- `bytes.decode("utf-8", errors="replace")`: replaces each byte that does
not start a well-formed sequence with U+FFFD and resynchronises on the next
byte (an abstraction of CPython's replacement policy, which can consume more
than one invalid byte per replacement character; the two agree on valid
input). -/
def decodeRepGo : Nat → List Nat → List Char
  | _, [] => []
  | 0, _ :: _ => []
  | fuel + 1, b :: rest =>
    match decodeOne (b :: rest) with
    | some (c, r) => c :: decodeRepGo fuel r
    | none => '�' :: decodeRepGo fuel rest

/-- Replacement-mode UTF-8 decode of a whole byte list. -/
def decodeReplace (bs : List Nat) : String := ⟨decodeRepGo bs.length bs⟩

/-! ### Codec round-trip lemmas -/

theorem char_toNat_lt (c : Char) : c.toNat < 1114112 := by
  rcases c.valid with h | h
  · exact Nat.lt_of_lt_of_le h (by norm_num)
  · exact h.2

theorem encodeChar_ne_nil (c : Char) : encodeChar c ≠ [] := by
  unfold encodeChar
  by_cases h1 : c.toNat < 128
  · simp [h1]
  · by_cases h2 : c.toNat < 2048
    · simp [h1, h2]
    · by_cases h3 : c.toNat < 65536
      · simp [h1, h2, h3]
      · simp [h1, h2, h3]

theorem decodeOne_encodeChar (c : Char) (rest : List Nat) :
    decodeOne (encodeChar c ++ rest) = some (c, rest) := by
  have hv := char_toNat_lt c
  by_cases h1 : c.toNat < 128
  · have e : encodeChar c = [c.toNat] := by
      simp only [encodeChar]
      rw [if_pos h1]
    rw [e, List.cons_append, List.nil_append]
    have hval : c.toNat < 128 := h1
    simp [decodeOne, hval, Char.ofNat_toNat]
  · by_cases h2 : c.toNat < 2048
    · have e : encodeChar c = [192 + c.toNat / 64, 128 + c.toNat % 64] := by
        simp only [encodeChar]
        rw [if_neg h1, if_pos h2]
      rw [e]
      have k1 : ¬ (192 + c.toNat / 64 < 128) := by omega
      have k2 : ¬ (192 + c.toNat / 64 < 192) := by omega
      have k3 : 192 + c.toNat / 64 < 224 := by omega
      have k4 : 128 ≤ 128 + c.toNat % 64 ∧ 128 + c.toNat % 64 < 192 := ⟨by omega, by omega⟩
      simp only [decodeOne, List.cons_append, List.nil_append, k1, k2, k3, k4,
        if_false, if_true, and_self, ite_true, ite_false, if_neg, if_pos]
      simp [k1, k2, k3, k4]
      have kv : c.toNat / 64 * 64 + c.toNat % 64 = c.toNat := by omega
      rw [kv, Char.ofNat_toNat]
    · by_cases h3 : c.toNat < 65536
      · have e : encodeChar c =
            [224 + c.toNat / 4096, 128 + c.toNat / 64 % 64, 128 + c.toNat % 64] := by
          simp only [encodeChar]
          rw [if_neg h1, if_neg h2, if_pos h3]
        rw [e]
        have k1 : ¬ (224 + c.toNat / 4096 < 128) := by omega
        have k2 : ¬ (224 + c.toNat / 4096 < 192) := by omega
        have k3 : ¬ (224 + c.toNat / 4096 < 224) := by omega
        have k4 : 224 + c.toNat / 4096 < 240 := by omega
        have k5 : (128 ≤ 128 + c.toNat / 64 % 64 ∧ 128 + c.toNat / 64 % 64 < 192) ∧
            128 ≤ 128 + c.toNat % 64 ∧ 128 + c.toNat % 64 < 192 :=
          ⟨⟨by omega, by omega⟩, by omega, by omega⟩
        simp [decodeOne, k1, k2, k3, k4, k5]
        have kv : c.toNat / 4096 * 4096 + c.toNat / 64 % 64 * 64 + c.toNat % 64 = c.toNat := by
          omega
        rw [kv, Char.ofNat_toNat]
      · have e : encodeChar c = [240 + c.toNat / 262144, 128 + c.toNat / 4096 % 64,
            128 + c.toNat / 64 % 64, 128 + c.toNat % 64] := by
          simp only [encodeChar]
          rw [if_neg h1, if_neg h2, if_neg h3]
        rw [e]
        have k1 : ¬ (240 + c.toNat / 262144 < 128) := by omega
        have k2 : ¬ (240 + c.toNat / 262144 < 192) := by omega
        have k3 : ¬ (240 + c.toNat / 262144 < 224) := by omega
        have k4 : ¬ (240 + c.toNat / 262144 < 240) := by omega
        have k5 : 240 + c.toNat / 262144 < 248 := by omega
        have k6 : (128 ≤ 128 + c.toNat / 4096 % 64 ∧ 128 + c.toNat / 4096 % 64 < 192) ∧
            (128 ≤ 128 + c.toNat / 64 % 64 ∧ 128 + c.toNat / 64 % 64 < 192) ∧
            128 ≤ 128 + c.toNat % 64 ∧ 128 + c.toNat % 64 < 192 :=
          ⟨⟨by omega, by omega⟩, ⟨by omega, by omega⟩, by omega, by omega⟩
        simp [decodeOne, k1, k2, k3, k4, k5, k6]
        have kv : c.toNat / 262144 * 262144 + c.toNat / 4096 % 64 * 4096 +
            c.toNat / 64 % 64 * 64 + c.toNat % 64 = c.toNat := by
          omega
        rw [kv, Char.ofNat_toNat]

theorem decodeAllL_cons (fuel : Nat) (b : Nat) (rest : List Nat) :
    decodeAllL (fuel + 1) (b :: rest) =
      match decodeOne (b :: rest) with
      | some (c, r) => (decodeAllL fuel r).map (c :: ·)
      | none => none := rfl

theorem decodeAllL_encode (cs : List Char) :
    ∀ fuel : Nat, ((cs.map encodeChar).flatten).length ≤ fuel →
      decodeAllL fuel ((cs.map encodeChar).flatten) = some cs := by
  induction cs with
  | nil =>
    intro fuel _
    simp [decodeAllL]
  | cons c cs ih =>
    intro fuel hf
    have hlen : 1 ≤ (encodeChar c).length := by
      have := encodeChar_ne_nil c
      cases hx : encodeChar c with
      | nil => exact absurd hx this
      | cons a b => simp
    simp only [List.map_cons, List.flatten_cons, List.length_append] at hf
    obtain ⟨fuel', rfl⟩ : ∃ f', fuel = f' + 1 := by
      cases fuel with
      | zero => omega
      | succ n => exact ⟨n, rfl⟩
    obtain ⟨a, as, ha⟩ : ∃ a as, encodeChar c = a :: as := by
      cases hx : encodeChar c with
      | nil => exact absurd hx (encodeChar_ne_nil c)
      | cons a as => exact ⟨a, as, rfl⟩
    have hsplit : encodeChar c ++ (cs.map encodeChar).flatten =
        a :: (as ++ (cs.map encodeChar).flatten) := by
      rw [ha]; rfl
    simp only [List.map_cons, List.flatten_cons]
    rw [hsplit, decodeAllL_cons, ← hsplit, decodeOne_encodeChar]
    have hrec : decodeAllL fuel' ((cs.map encodeChar).flatten) = some cs := by
      apply ih
      omega
    simp [hrec]

/-- The UTF-8 round trip: decoding an encoded string gives the string back.
This is the codec fact behind the text file round trips of both backends. -/
theorem strDecode_strEncode (s : String) : strDecode (strEncode s) = some s := by
  unfold strDecode strEncode
  rw [decodeAllL_encode s.data _ (Nat.le_refl _)]
  cases s
  rfl

/-! ## Shared data model (`backends/base.py`) -/

/-- `SandboxStatus` enum from `base.py`. -/
inductive SandboxStatus where
  | creating
  | running
  | paused
  | stopped
  | error
deriving DecidableEq, Repr

/-- `SandboxInfo` dataclass from `base.py` (the optional `ports` map is never
set by either backend and is omitted).  `metadata` dictionaries are embedded
as association lists of strings. -/
structure SandboxInfo where
  sandbox_id : String
  backend_type : String
  status : SandboxStatus
  created_at : String
  metadata : List (String × String)
  template : Option String
deriving DecidableEq, Repr

/-- `CommandResult` dataclass from `base.py`. -/
structure CommandResult where
  stdout : String
  stderr : String
  exit_code : Int
  pid : Option String := none
deriving DecidableEq, Repr

/-- `FileInfo` dataclass from `base.py`. -/
structure FileInfo where
  name : String
  path : String
  type : String
  size : Nat
  permissions : String
  modified_at : Option String := none
deriving DecidableEq, Repr

/-- The exception kinds raised by the backends (`utils/exceptions.py`),
plus two kinds of exceptions that escape the backends' own handlers:
`dockerNF` for `docker.errors.NotFound` propagating uncaught, and `os` for
operating-system/codec errors raised by the Python runtime itself. -/
inductive Err where
  | notFound (msg : String)
  | fileOp (msg : String)
  | cmdExec (msg : String)
  | invalidBackend (msg : String)
  | dockerNF
  | os
deriving DecidableEq, Repr

/-- Is this error a `SandboxNotFoundError`? -/
def Err.isNotFound : Err → Bool
  | .notFound _ => true
  | _ => false

end SandboxModel

namespace SandboxModel

/-! ## Terminal backend (`backends/tmux/backend.py`, class `TmuxBackend`)

The backend's observable state is embedded as `TmuxState`:
  * `tmuxSessions` — the names of the sessions alive on the tmux server
    (what `tmux has-session` / `kill-session` consult);
  * `sessions` — the in-memory `self._sessions` dictionary;
  * `infoFiles` — the per-sandbox JSON side files in the capture directory;
  * `hostFiles`/`hostDirs` — the host filesystem: file contents as UTF-8
    byte lists keyed by path text, and a set of existing directories
    (OS-level failure modes such as permissions are below this abstraction);
  * `captureFiles` — the per-sandbox `{id}_output.txt` capture files,
    keyed by sandbox id.

Configuration keys used by the modelled operations are gathered in
`TmuxConfig`. -/

/-- The per-sandbox metadata dictionary stored in `self._sessions` and in the
JSON side file (fields not read by any modelled operation — `timeout`,
`envs` — are omitted). -/
structure SessionInfo where
  workspace : String
  created_at : String
  template : Option String
  metadata : List (String × String)
deriving DecidableEq, Repr

/-- Configuration of `TmuxBackend` after `_validate_config` has expanded the
directories. -/
structure TmuxConfig where
  workspace_dir : String
  capture_dir : String
  cleanup_workspace : Bool
deriving DecidableEq, Repr

/-- Observable state of a `TmuxBackend` instance plus the host resources it
touches. -/
structure TmuxState where
  tmuxSessions : List String
  sessions : List (String × SessionInfo)
  infoFiles : List (String × SessionInfo)
  hostFiles : String → Option (List Nat)
  hostDirs : String → Bool
  captureFiles : String → Option String

namespace TmuxBackend

/-- `TmuxBackend._session_exists`: `tmux has-session -t id` succeeds iff the
session is alive on the server. -/
def session_exists (st : TmuxState) (id : String) : Bool :=
  st.tmuxSessions.contains id

/-- The workspace directory used for a sandbox:
`self._sessions.get(sandbox_id, {}).get("workspace", workspace_dir/sandbox_id)`
as computed in `run_command` and `_get_full_path`. -/
def workspaceOf (st : TmuxState) (cfg : TmuxConfig) (id : String) : String :=
  match st.sessions.lookup id with
  | some info => info.workspace
  | none => cfg.workspace_dir ++ "/" ++ id

/-- `TmuxBackend._get_full_path`: translate a sandbox path into a host path.
Mirrors the source exactly, including the `pathlib` semantics of joining:
`workspace / path[10:]` for a `/workspace`-prefixed path (note `path[10:]`
retains its leading slash, so `pathJoin` replaces the base — the behaviour
claim C5 is about), `workspace / path[1:]` for other absolute paths, and
`workspace / path` otherwise. -/
def get_full_path (st : TmuxState) (cfg : TmuxConfig) (id path : String) : String :=
  let workspace := workspaceOf st cfg id
  if strStarts "/workspace" path then pathJoin workspace (strDropL path 10)
  else if strStarts "/" path then pathJoin workspace (strDropL path 1)
  else pathJoin workspace path

/-- `Path(full).parent.mkdir(parents=True, exist_ok=True)`: all missing
ancestor directories of `full` come into existence. -/
def mkdirParents (st : TmuxState) (full : String) : TmuxState :=
  { st with hostDirs := fun d => st.hostDirs d || (parentChain full).contains d }

/-- `TmuxBackend.write_file`: translate the path, create parent directories,
write the UTF-8 encoding of `content`, and return a `FileInfo` whose size is
the on-disk byte count (`stat.st_size`).  There is no sandbox-existence
check in the source.  Writing onto an existing directory raises an OS error
(`IsADirectoryError`), modelled by `Err.os`; the permission string reported
by `stat` depends on the process umask and is modelled as the constant
`"644"`. -/
def write_file (st : TmuxState) (cfg : TmuxConfig) (id path content : String) :
    Except Err FileInfo × TmuxState :=
  let full := get_full_path st cfg id path
  let st1 := mkdirParents st full
  if st.hostDirs full then (.error .os, st1)
  else
    let bs := strEncode content
    let st2 := { st1 with hostFiles := fun p => if p = full then some bs else st1.hostFiles p }
    (.ok ⟨pyBasename full, full, "file", bs.length, "644", none⟩, st2)

/-- `TmuxBackend.write_file_bytes`: as `write_file` but with raw bytes. -/
def write_file_bytes (st : TmuxState) (cfg : TmuxConfig) (id path : String)
    (data : List Nat) : Except Err FileInfo × TmuxState :=
  let full := get_full_path st cfg id path
  let st1 := mkdirParents st full
  if st.hostDirs full then (.error .os, st1)
  else
    let st2 := { st1 with hostFiles := fun p => if p = full then some data else st1.hostFiles p }
    (.ok ⟨pyBasename full, full, "file", data.length, "644", none⟩, st2)

/-- Worker for the universal-newline translation, with fuel (one unit per
consumed character; callers pass the list length, which always suffices). -/
def univNLGo : Nat → List Char → List Char
  | _, [] => []
  | 0, l => l
  | fuel + 1, c :: rest =>
    if c = '\r' then
      if rest.head? = some '\n' then '\n' :: univNLGo fuel rest.tail
      else '\n' :: univNLGo fuel rest
    else c :: univNLGo fuel rest

/-- The universal-newline translation Python's text mode applies when
reading (`newline=None`): every `"\r\n"` pair and every lone `"\r"` becomes
`"\n"`. -/
def univNewlines (l : List Char) : List Char := univNLGo l.length l

/-- `TmuxBackend.read_file`: `FileOperationError` when the path does not
exist, otherwise `Path.read_text()` — a UTF-8 decode followed by the
text-mode universal-newline translation (reading a directory or undecodable
bytes raises an OS-level error).  `write_text`'s own newline translation
(`"\n"` to `os.linesep`) is the identity on the POSIX hosts this backend
runs on, so only the read side translates. -/
def read_file (st : TmuxState) (cfg : TmuxConfig) (id path : String) :
    Except Err String :=
  let full := get_full_path st cfg id path
  match st.hostFiles full with
  | some bs =>
    match strDecode bs with
    | some s => .ok ⟨univNewlines s.data⟩
    | none => .error .os
  | none =>
    if st.hostDirs full then .error .os
    else .error (.fileOp ("File not found: " ++ path))

/-- `TmuxBackend.read_file_bytes`. -/
def read_file_bytes (st : TmuxState) (cfg : TmuxConfig) (id path : String) :
    Except Err (List Nat) :=
  let full := get_full_path st cfg id path
  match st.hostFiles full with
  | some bs => .ok bs
  | none =>
    if st.hostDirs full then .error .os
    else .error (.fileOp ("File not found: " ++ path))

/-- Remove every file and directory at or underneath `root`
(`shutil.rmtree`). -/
def removeTree (st : TmuxState) (root : String) : TmuxState :=
  { st with
    hostFiles := fun p => if isUnderDir root p then none else st.hostFiles p
    hostDirs := fun p => if isUnderDir root p then false else st.hostDirs p }

/-- `TmuxBackend.kill_sandbox`: `tmux kill-session` with `check=False` (the
session is removed if it exists; a failure is ignored), optional workspace
cleanup, removal of the side file and of the `_sessions` entry, then
`return True`.  The `except` branch returning `False` is reachable only
through OS-level failures below this abstraction, so the model always
returns `True` — exactly the behaviour claim C4 measures. -/
def kill_sandbox (st : TmuxState) (cfg : TmuxConfig) (id : String) :
    Bool × TmuxState :=
  let st1 := { st with tmuxSessions := st.tmuxSessions.filter (fun s => s != id) }
  let st2 := if cfg.cleanup_workspace then removeTree st1 (cfg.workspace_dir ++ "/" ++ id)
             else st1
  let st3 := { st2 with
    infoFiles := st2.infoFiles.filter (fun kv => kv.1 != id)
    sessions := st2.sessions.filter (fun kv => kv.1 != id) }
  (true, st3)

/-- `TmuxBackend.is_sandbox_running` = `_session_exists`. -/
def is_sandbox_running (st : TmuxState) (id : String) : Bool :=
  session_exists st id

/-- `TmuxBackend.get_sandbox_info`: not-found check first, then the cached
or side-file metadata (falling back to an empty info dictionary); the status
is always `RUNNING` for an existing session. -/
def get_sandbox_info (st : TmuxState) (cfg : TmuxConfig) (id : String) :
    Except Err SandboxInfo :=
  if !(session_exists st id) then .error (.notFound ("Session not found: " ++ id))
  else
    match (st.sessions.lookup id).or (st.infoFiles.lookup id) with
    | some i => .ok ⟨id, "tmux", .running, i.created_at, i.metadata, i.template⟩
    | none => .ok ⟨id, "tmux", .running, "", [], none⟩

/-- `TmuxBackend.connect_sandbox`: not-found check, then lazily populate
`self._sessions` from the side file. -/
def connect_sandbox (st : TmuxState) (id : String) :
    Except Err Bool × TmuxState :=
  if !(session_exists st id) then (.error (.notFound ("Session not found: " ++ id)), st)
  else
    match st.sessions.lookup id with
    | some _ => (.ok true, st)
    | none =>
      match st.infoFiles.lookup id with
      | some i => (.ok true, { st with sessions := (id, i) :: st.sessions })
      | none => (.ok true, st)

/-! ### The foreground command protocol (`run_command`)

The capture-file polling loop reads the capture file every 200 ms until the
exit marker shows up or the timeout elapses.  The successive file contents
the loop observes are embedded as a list of snapshots (`none` = the file
does not exist yet); the finiteness of the list embodies the timeout bound.
The marker is `exit_marker` in the source (the `marker` variable there is
generated but never used). -/

/-- Parse a captured content string exactly as the body of the
`if exit_marker in content:` branch does:
`parts = content.split(exit_marker)`, `output = parts[0].strip()`,
`exit_code = int(parts[1].strip().split()[0])` with `ValueError`/`IndexError`
falling back to `0`. -/
def parseCaptured (content marker : String) : String × Int :=
  let output := String.mk (stripL (part0 content.data marker.data))
  let after := stripL (part1 content.data marker.data)
  let code : Int :=
    match firstTok after with
    | none => 0
    | some t =>
      match pyInt (String.mk t) with
      | some k => k
      | none => 0
  (output, code)

/-- The polling loop: return the parse of the first observed snapshot that
contains the marker; if no snapshot ever does, the initial values
`output = ""`, `exit_code = -1` survive to the result. -/
def pollRun (marker : String) : List (Option String) → String × Int
  | [] => ("", -1)
  | none :: rest => pollRun marker rest
  | some content :: rest =>
    if hasSub marker.data content.data then parseCaptured content marker
    else pollRun marker rest

/-- `TmuxBackend.run_command`: not-found check first (before any side
effect); then the command is wrapped with the exit marker and sent, the
capture file is polled (`pollRun` over the observed snapshots), the capture
file is deleted unconditionally, and the result is returned with
`stderr = ""` (the pty merges the two streams).  The marker and snapshots
are parameters because they come from the random-number generator and the
scheduler, not from the backend state. -/
def run_command (st : TmuxState) (cfg : TmuxConfig) (id marker : String)
    (snaps : List (Option String)) : Except Err CommandResult × TmuxState :=
  if !(session_exists st id) then
    (.error (.notFound ("Session not found: " ++ id)), st)
  else
    let r := pollRun marker snaps
    ( .ok ⟨r.1, "", r.2, none⟩,
      { st with captureFiles := fun k => if k = id then none else st.captureFiles k } )

end TmuxBackend

/-! ## Container backend (`backends/orbstack/backend.py`, class `OrbStackBackend`)

The Docker daemon is embedded as a map from container name to a
`DockerContainer` record; each container's filesystem — reached only through
the archive (`get_archive`/`put_archive`) and `exec_run` primitives — is a
map keyed by the `(directory, filename)` pair produced by
`os.path.dirname`/`os.path.basename`, with the empty directory standing for
the container working directory `/workspace` (relative archive paths resolve
against it).  Path aliasing through `..` or symlinks is below this
abstraction. -/

/-- A container as the Docker daemon sees it: its native status string, its
labels, and its creation attribute (`attrs["Created"]`). -/
structure DockerContainer where
  status : String
  labels : List (String × String)
  createdAttr : String
deriving DecidableEq, Repr

/-- Configuration of `OrbStackBackend` (the keys the modelled operations
read). -/
structure OrbConfig where
  workspace_dir : String
  cleanup_workspace : Bool
deriving DecidableEq, Repr

/-- Observable state of an `OrbStackBackend` instance: the daemon's
containers, the `self._active_containers` cache (the values matter only for
presence, the cached container object being the container itself), each
container's filesystem (file contents keyed by `(directory, filename)` and
the set of existing directories, which `put_archive` requires), and the
host workspace directories. -/
structure OrbState where
  docker : List (String × DockerContainer)
  active : List String
  containerFS : String → String × String → Option (List Nat)
  containerDirs : String → String → Bool
  hostDirs : String → Bool

namespace OrbStackBackend

/-- `OrbStackBackend._get_container`: the cached reference if present
(without consulting the daemon), else `client.containers.get`, raising
`SandboxNotFoundError` when the daemon does not know the id. -/
def get_container (st : OrbState) (id : String) : Except Err String :=
  if st.active.contains id then .ok id
  else if (st.docker.lookup id).isSome then .ok id
  else .error (.notFound ("Container not found: " ++ id))

/-- `OrbStackBackend._map_status`: Docker native status → `SandboxStatus`,
with unmapped states going to `ERROR`. -/
def map_status (s : String) : SandboxStatus :=
  if s == "running" then .running
  else if s == "paused" then .paused
  else if s == "exited" then .stopped
  else if s == "created" then .creating
  else if s == "restarting" then .creating
  else if s == "removing" then .stopped
  else if s == "dead" then .error
  else .error

/-- The label namespace used by the backend (`LABEL_PREFIX`). -/
def labelNS : String := "agent-sandbox"

/-- Extract the metadata map from container labels: keys starting with
`agent-sandbox.meta.` with that namespace stripped. -/
def metadataOfLabels (labels : List (String × String)) : List (String × String) :=
  labels.filterMap (fun kv =>
    if strStarts (labelNS ++ ".meta.") kv.1 then
      some (strDropL kv.1 (labelNS ++ ".meta.").data.length, kv.2)
    else none)

/-- `OrbStackBackend.get_sandbox_info`: resolve the container (not-found
first), `reload()` it against the daemon (a stale cache entry raises
`docker.errors.NotFound`, which this method does not catch), then rebuild
the info purely from labels. -/
def get_sandbox_info (st : OrbState) (id : String) : Except Err SandboxInfo :=
  match get_container st id with
  | .error e => .error e
  | .ok cid =>
    match st.docker.lookup cid with
    | none => .error .dockerNF
    | some c =>
      .ok ⟨id, "orbstack", map_status c.status,
        ((c.labels.lookup (labelNS ++ ".created_at")).getD c.createdAttr),
        metadataOfLabels c.labels,
        c.labels.lookup (labelNS ++ ".template")⟩

/-- `OrbStackBackend.is_sandbox_running`: `True` iff the container's
reloaded status is `running`; `SandboxNotFoundError` is caught and becomes
`False` (a stale cache entry's `reload()` raises uncaught, `Err.dockerNF`). -/
def is_sandbox_running (st : OrbState) (id : String) : Except Err Bool :=
  match get_container st id with
  | .error _ => .ok false
  | .ok cid =>
    match st.docker.lookup cid with
    | none => .error .dockerNF
    | some c => .ok (c.status == "running")

/-- `OrbStackBackend.kill_sandbox`: resolve, reload, `kill()` if running,
`remove(force=True)`, optional workspace cleanup, drop the cache entry,
return `True`; `NotFound` and `SandboxNotFoundError` (and any other
exception) become `False` with no state change in those branches. -/
def kill_sandbox (st : OrbState) (cfg : OrbConfig) (id : String) :
    Bool × OrbState :=
  match get_container st id with
  | .error _ => (false, st)
  | .ok cid =>
    match st.docker.lookup cid with
    | none => (false, st)
    | some _ =>
      let st1 : OrbState :=
        { st with
          docker := st.docker.filter (fun kv => kv.1 != cid)
          containerFS := fun c k => if c = cid then none else st.containerFS c k
          containerDirs := fun c d => if c = cid then false else st.containerDirs c d }
      let st2 :=
        if cfg.cleanup_workspace then
          { st1 with hostDirs := fun p =>
              if isUnderDir (cfg.workspace_dir ++ "/" ++ id) p then false else st1.hostDirs p }
        else st1
      (true, { st2 with active := st2.active.filter (fun s => s != id) })

/-- The shape of one `exec_run` invocation as the Docker runtime receives
it: the command vector, the working directory and the environment.  Note
there is no timeout field — `run_command` never forwards its `timeout`
argument to `exec_run`, which is the substance of claim C3. -/
structure ExecCall where
  cmd : List String
  workdir : String
  env : List (String × String)
deriving DecidableEq, Repr

/-- The runtime's answer to an exec: demultiplexed stdout/stderr byte
streams (absent streams are `None`) and the exit code. -/
structure ExecOutcome where
  out : Option (List Nat)
  err : Option (List Nat)
  code : Int
deriving DecidableEq, Repr

/-- `OrbStackBackend.run_command`: resolve the container (not-found before
any side effect), build the command vector (`/bin/sh -c` wrapper in shell
mode, `command.split()` otherwise), call `exec_run` with
`workdir = cwd or "/workspace"` and `demux=True` — and, crucially, without
the `timeout` argument — then decode both streams with
`errors="replace"` and strip them.  The runtime's behaviour is a parameter
`exec`. -/
def run_command (st : OrbState) (id command : String) (cwd : Option String)
    (envs : List (String × String)) (timeout : Option Nat) (shell : Bool)
    (exec : ExecCall → ExecOutcome) : Except Err CommandResult × OrbState :=
  match get_container st id with
  | .error e => (.error e, st)
  | .ok _ =>
    let cmd := if shell then ["/bin/sh", "-c", command] else pySplitWs command
    let r := exec ⟨cmd, cwd.getD "/workspace", envs⟩
    let stdout := (r.out.map decodeReplace).getD ""
    let stderr := (r.err.map decodeReplace).getD ""
    (.ok ⟨pyStrip stdout, pyStrip stderr, r.code, none⟩, st)

/-- The `(directory, filename)` key a path denotes in the archive protocol:
`os.path.dirname(path) or "/workspace"` paired with
`os.path.basename(path)` — exactly the pair `write_file_bytes` computes, and
the resolution `get_archive` applies (relative paths resolve against the
container working directory `/workspace`). -/
def archiveKey (path : String) : String × String :=
  (if pyDirname path = "" then "/workspace" else pyDirname path, pyBasename path)

/-- `OrbStackBackend.write_file_bytes`: resolve the container, pack `data`
into a single-member tar named `os.path.basename(path)`, `put_archive` it
into `os.path.dirname(path) or "/workspace"`, and return a synthesised
`FileInfo` (permissions are reported as the constant `"644"` in the
source).  `put_archive` fails when the target directory does not exist in
the container; the `except` clause turns that into a `FileOperationError`
(whose message embeds the runtime's exception text). -/
def write_file_bytes (st : OrbState) (id path : String) (data : List Nat) :
    Except Err FileInfo × OrbState :=
  match get_container st id with
  | .error e => (.error e, st)
  | .ok cid =>
    let key := archiveKey path
    if st.containerDirs cid key.1 then
      ( .ok ⟨pyBasename path, path, "file", data.length, "644", none⟩,
        { st with containerFS := fun c k =>
            if c = cid ∧ k = key then some data else st.containerFS c k } )
    else
      (.error (.fileOp ("Failed to write file: " ++ path)), st)

/-- `OrbStackBackend.write_file`: UTF-8 encode and delegate to
`write_file_bytes`. -/
def write_file (st : OrbState) (id path content : String) :
    Except Err FileInfo × OrbState :=
  write_file_bytes st id path (strEncode content)

/-- `OrbStackBackend.read_file_bytes`: resolve the container, `get_archive`
the path and extract the single member; `docker.errors.NotFound` (no such
file) becomes `FileOperationError`. -/
def read_file_bytes (st : OrbState) (id path : String) :
    Except Err (List Nat) :=
  match get_container st id with
  | .error e => .error e
  | .ok cid =>
    match st.containerFS cid (archiveKey path) with
    | some data => .ok data
    | none => .error (.fileOp ("File not found: " ++ path))

/-- `OrbStackBackend.read_file`: `read_file_bytes` then a strict UTF-8
decode (`UnicodeDecodeError` propagates as an OS-level error). -/
def read_file (st : OrbState) (id path : String) : Except Err String :=
  match read_file_bytes st id path with
  | .error e => .error e
  | .ok data =>
    match strDecode data with
    | some s => .ok s
    | none => .error .os

end OrbStackBackend

/-! ## Registry/Factory (`backends/factory.py`, class `BackendFactory`) -/

/-- A constructed backend instance: its identity (a construction counter
value), the backend kind it was built as, and the configuration dictionary
it was constructed — and validated — with.  Two calls constructing
instances always yield distinct `instId`s. -/
structure BackendInstance where
  instId : Nat
  kind : String
  cfgAtConstruction : List (String × String)
deriving DecidableEq, Repr

/-- The class-level state of `BackendFactory`: the `_backends` registry
(name → class, the class embedded as its name), the `_instances` cache and
the construction counter. -/
structure FactoryState where
  registered : List (String × String)
  instances : List (String × BackendInstance)
  nextId : Nat

namespace BackendFactory

/-- `BackendFactory._register_default_backends`. -/
def defaultBackends : List (String × String) :=
  [("orbstack", "OrbStackBackend"), ("tmux", "TmuxBackend")]

/-- `BackendFactory.create_backend`: lower-case the name; if caching is on
and a cached instance exists, return it at once — before the registry is
even consulted and without touching the supplied configuration; otherwise
lazily register the defaults, look the class up (`InvalidBackendError` if
unknown), construct and validate an instance from `config`, and cache it if
requested.  Construction/validation success is assumed (their failure modes
concern the environment, not the factory logic under test). -/
def create_backend (st : FactoryState) (backend_type : String)
    (config : List (String × String)) (cache : Bool) :
    Except Err BackendInstance × FactoryState :=
  let bt := asciiLower backend_type
  match (if cache then st.instances.lookup bt else none) with
  | some inst => (.ok inst, st)
  | none =>
    let reg := if st.registered.isEmpty then defaultBackends else st.registered
    match reg.lookup bt with
    | none =>
      ( .error (.invalidBackend ("Unknown backend: " ++ bt)),
        { st with registered := reg } )
    | some _ =>
      let inst : BackendInstance := ⟨st.nextId, bt, config⟩
      ( .ok inst,
        { st with
          registered := reg
          nextId := st.nextId + 1
          instances := if cache then (bt, inst) :: st.instances else st.instances } )

/-- `BackendFactory.clear_cache`: drop all cached instances. -/
def clear_cache (st : FactoryState) : FactoryState :=
  { st with instances := [] }

end BackendFactory

/-! ## Helper lemmas -/

theorem isInit_recover {p l : List Char} (h : isInit p l = true) :
    p ++ l.drop p.length = l := by
  induction p generalizing l with
  | nil => simp
  | cons a as ih =>
    cases l with
    | nil => simp [isInit] at h
    | cons c cs =>
      simp only [isInit, Bool.and_eq_true, beq_iff_eq] at h
      obtain ⟨rfl, h2⟩ := h
      simp only [List.cons_append, List.length_cons, List.drop_succ_cons]
      rw [ih h2]

theorem isInit_append_r {p l : List Char} (y : List Char) (h : isInit p l = true) :
    isInit p (l ++ y) = true := by
  induction p generalizing l with
  | nil => simp [isInit]
  | cons a as ih =>
    cases l with
    | nil => simp [isInit] at h
    | cons c cs =>
      simp only [isInit, Bool.and_eq_true, beq_iff_eq] at h
      obtain ⟨rfl, h2⟩ := h
      simp only [List.cons_append, isInit, Bool.and_eq_true, beq_iff_eq]
      refine ⟨?_, ih h2⟩
      simp

theorem breakAt_decomp {sep l pre post : List Char}
    (h : breakAt sep l = some (pre, post)) : pre ++ sep ++ post = l := by
  induction l generalizing pre post with
  | nil =>
    by_cases hs : sep = []
    · simp [breakAt, hs] at h
      simp [hs, h.1, h.2]
    · simp [breakAt, hs] at h
  | cons c rest ih =>
    by_cases hI : isInit sep (c :: rest) = true
    · rw [breakAt, if_pos hI] at h
      injection h with h
      injection h with h1 h2
      subst h1
      subst h2
      simpa using isInit_recover hI
    · rw [breakAt, if_neg hI] at h
      cases hb : breakAt sep rest with
      | none => rw [hb] at h; exact absurd h (by simp)
      | some pq =>
        obtain ⟨p, q⟩ := pq
        rw [hb] at h
        injection h with h
        injection h with h1 h2
        subst h1
        subst h2
        have := ih hb
        simp only [List.cons_append, List.append_assoc] at this ⊢
        rw [this]

theorem hasSub_nil_l (l : List Char) : hasSub [] l = true := by
  cases l <;> simp [hasSub, breakAt, isInit]

theorem hasSub_nil_r {pat : List Char} (h : hasSub pat [] = true) : pat = [] := by
  by_cases hs : pat = []
  · exact hs
  · simp [hasSub, breakAt, hs] at h

theorem hasSub_append_right {pat y : List Char} (x : List Char)
    (h : hasSub pat y = true) : hasSub pat (x ++ y) = true := by
  induction x with
  | nil => simpa using h
  | cons c x' ih =>
    simp only [List.cons_append]
    by_cases hI : isInit pat (c :: (x' ++ y)) = true
    · simp [hasSub, breakAt, hI]
    · simp only [hasSub, breakAt, hI, if_neg, if_false, Bool.false_eq_true]
      simp only [hasSub] at ih
      cases hb : breakAt pat (x' ++ y) with
      | none => rw [hb] at ih; simp at ih
      | some pq => simp [hb]

theorem hasSub_append_left {pat x : List Char} (y : List Char)
    (h : hasSub pat x = true) : hasSub pat (x ++ y) = true := by
  induction x with
  | nil =>
    have := hasSub_nil_r h
    subst this
    simpa using hasSub_nil_l y
  | cons c x' ih =>
    simp only [List.cons_append]
    by_cases hI : isInit pat (c :: x') = true
    · have hI2 : isInit pat ((c :: x') ++ y) = true := isInit_append_r y hI
      simp only [List.cons_append] at hI2
      simp [hasSub, breakAt, hI2]
    · rw [hasSub, breakAt, if_neg hI] at h
      have hx' : hasSub pat x' = true := by
        cases hb : breakAt pat x' with
        | none => rw [hb] at h; simp at h
        | some pq => simp [hasSub, hb]
      have := ih hx'
      by_cases hI2 : isInit pat (c :: (x' ++ y)) = true
      · simp [hasSub, breakAt, hI2]
      · simp only [hasSub, breakAt, hI2, if_neg, if_false]
        simp only [hasSub] at this
        cases hb : breakAt pat (x' ++ y) with
        | none => rw [hb] at this; simp at this
        | some pq => simp [hb]

theorem stripL_decomp (l : List Char) :
    ∃ a b, a ++ stripL l ++ b = l := by
  refine ⟨l.takeWhile isWsCh,
    ((l.dropWhile isWsCh).reverse.takeWhile isWsCh).reverse, ?_⟩
  unfold stripL
  have h1 : (l.dropWhile isWsCh).reverse.takeWhile isWsCh ++
      (l.dropWhile isWsCh).reverse.dropWhile isWsCh = (l.dropWhile isWsCh).reverse :=
    List.takeWhile_append_dropWhile _ _
  have h2 : ((l.dropWhile isWsCh).reverse.dropWhile isWsCh).reverse ++
      ((l.dropWhile isWsCh).reverse.takeWhile isWsCh).reverse = l.dropWhile isWsCh := by
    rw [← List.reverse_append, h1, List.reverse_reverse]
  rw [List.append_assoc, h2]
  exact List.takeWhile_append_dropWhile _ _

theorem hasSub_of_stripL {pat l : List Char}
    (h : hasSub pat (stripL l) = true) : hasSub pat l = true := by
  obtain ⟨a, b, hab⟩ := stripL_decomp l
  rw [← hab, List.append_assoc]
  exact hasSub_append_right a (hasSub_append_left b h)

theorem hasSub_of_part0 {pat l sep : List Char}
    (h : hasSub pat (part0 l sep) = true) : hasSub pat l = true := by
  unfold part0 at h
  cases hb : breakAt sep l with
  | none => rwa [hb] at h
  | some pq =>
    obtain ⟨pre, post⟩ := pq
    rw [hb] at h
    have hd := breakAt_decomp hb
    rw [← hd, List.append_assoc]
    exact hasSub_append_left _ h

theorem hasSub_of_isInit {pat obs t : List Char}
    (hI : isInit obs t = true) (h : hasSub pat obs = true) : hasSub pat t = true := by
  have := isInit_recover hI
  rw [← this]
  exact hasSub_append_left _ h

theorem lookup_filter_ne {α : Type} (l : List (String × α)) (id : String) :
    (l.filter (fun kv => kv.1 != id)).lookup id = none := by
  induction l with
  | nil => rfl
  | cons kv rest ih =>
    obtain ⟨k, v⟩ := kv
    by_cases hk : k = id
    · subst hk
      simp [List.filter, ih]
    · have hne : (k != id) = true := by simp [bne, hk]
      simp only [List.filter, hne]
      rw [List.lookup]
      have : (id == k) = false := by
        simp [beq_eq_false_iff_ne]
        exact fun he => hk he.symm
      rw [this]
      exact ih

theorem contains_filter_ne (l : List String) (id : String) :
    (l.filter (fun s => s != id)).contains id = false := by
  induction l with
  | nil => rfl
  | cons s rest ih =>
    by_cases hs : s = id
    · subst hs
      simp [List.filter, ih]
    · have hne : (s != id) = true := by simp [bne, hs]
      simp only [List.filter, hne]
      simp only [List.contains_cons, Bool.or_eq_false_iff]
      constructor
      · simp [beq_eq_false_iff_ne]
        exact fun he => hs he.symm
      · exact ih

theorem get_container_ok {st : OrbState} {id cid : String}
    (h : OrbStackBackend.get_container st id = .ok cid) : cid = id := by
  unfold OrbStackBackend.get_container at h
  by_cases h1 : st.active.contains id = true
  · rw [if_pos h1] at h
    injection h with h
    exact h.symm
  · rw [if_neg h1] at h
    by_cases h2 : (st.docker.lookup id).isSome = true
    · rw [if_pos h2] at h
      injection h with h
      exact h.symm
    · rw [if_neg h2] at h
      cases h

/-- The polling loop returns the timeout defaults when no snapshot ever
contains the marker. -/
theorem pollRun_all_clean {marker : String} {snaps : List (Option String)}
    (h : ∀ c : String, some c ∈ snaps → hasSub marker.data c.data = false) :
    TmuxBackend.pollRun marker snaps = ("", -1) := by
  induction snaps with
  | nil => rfl
  | cons s rest ih =>
    cases s with
    | none =>
      rw [TmuxBackend.pollRun]
      exact ih (fun c hc => h c (List.mem_cons_of_mem _ hc))
    | some content =>
      rw [TmuxBackend.pollRun]
      rw [h content (List.mem_cons_self _ _)]
      simp only [Bool.false_eq_true, if_false]
      exact ih (fun c hc => h c (List.mem_cons_of_mem _ hc))

/-- The polling loop returns the parse of the first snapshot that contains
the marker. -/
theorem pollRun_first_hit {marker content : String}
    {pre rest : List (Option String)}
    (hpre : ∀ c : String, some c ∈ pre → hasSub marker.data c.data = false)
    (hc : hasSub marker.data content.data = true) :
    TmuxBackend.pollRun marker (pre ++ some content :: rest) =
      TmuxBackend.parseCaptured content marker := by
  induction pre with
  | nil =>
    simp only [List.nil_append]
    rw [TmuxBackend.pollRun, hc]
    simp
  | cons s pre' ih =>
    cases s with
    | none =>
      simp only [List.cons_append]
      rw [TmuxBackend.pollRun]
      exact ih (fun c hcm => hpre c (List.mem_cons_of_mem _ hcm))
    | some c0 =>
      simp only [List.cons_append]
      rw [TmuxBackend.pollRun]
      rw [hpre c0 (List.mem_cons_self _ _)]
      simp only [Bool.false_eq_true, if_false]
      exact ih (fun c hcm => hpre c (List.mem_cons_of_mem _ hcm))

/-- A pattern absent from a foreground call's own session text never shows
up in the stdout the polling loop produces from snapshots of that text. -/
theorem pollRun_no_leak {marker pat callText : String}
    {snaps : List (Option String)}
    (hs : ∀ c : String, some c ∈ snaps → isInit c.data callText.data = true)
    (hp : hasSub pat.data callText.data = false) :
    hasSub pat.data (TmuxBackend.pollRun marker snaps).1.data = false := by
  induction snaps with
  | nil =>
    rw [TmuxBackend.pollRun]
    by_cases hnil : hasSub pat.data ("" : String).data = true
    · have := hasSub_nil_r hnil
      rw [this] at hp
      rw [hasSub_nil_l] at hp
      cases hp
    · simpa using hnil
  | cons s rest ih =>
    cases s with
    | none =>
      rw [TmuxBackend.pollRun]
      exact ih (fun c hc => hs c (List.mem_cons_of_mem _ hc))
    | some content =>
      rw [TmuxBackend.pollRun]
      by_cases hm : hasSub marker.data content.data = true
      · rw [hm]
        simp only [if_true]
        by_cases hleak :
            hasSub pat.data (TmuxBackend.parseCaptured content marker).1.data = true
        · exfalso
          have h1 : hasSub pat.data content.data = true := by
            have : (TmuxBackend.parseCaptured content marker).1.data =
                stripL (part0 content.data marker.data) := rfl
            rw [this] at hleak
            exact hasSub_of_part0 (hasSub_of_stripL hleak)
          have h2 := hasSub_of_isInit (hs content (List.mem_cons_self _ _)) h1
          rw [h2] at hp
          cases hp
        · simpa using hleak
      · have hm' : hasSub marker.data content.data = false := by
          simpa using hm
        rw [hm']
        simp only [Bool.false_eq_true, if_false]
        exact ih (fun c hc => hs c (List.mem_cons_of_mem _ hc))

/-! ## Concrete demonstration states (used by counterexamples and witnesses) -/

/-- A tmux backend configuration with cleanup disabled. -/
def demoCfg : TmuxConfig := ⟨"/ws", "/cap", false⟩

/-- A tmux backend state with no sessions and an empty host filesystem. -/
def demoEmpty : TmuxState :=
  ⟨[], [], [], fun _ => none, fun _ => false, fun _ => none⟩

/-- A tmux backend state with one live sandbox `sbx_a` whose workspace is
`/ws/sbx_a`, and a stale capture file for it. -/
def demoLive : TmuxState :=
  ⟨["sbx_a"], [("sbx_a", ⟨"/ws/sbx_a", "2024-01-01T00:00:00", none, []⟩)], [],
    fun _ => none, fun _ => false, fun _ => some "stale"⟩

/-- An OrbStack configuration with cleanup disabled. -/
def demoOrbCfg : OrbConfig := ⟨"/ows", false⟩

/-- An OrbStack state with a single running container `sbx_c` (not in the
instance cache) whose filesystem holds no files but has the `/workspace`
working directory. -/
def demoOrb : OrbState :=
  ⟨[("sbx_c", ⟨"running", [], "2024-01-01T00:00:00"⟩)], [],
    fun _ _ => none, fun c d => c == "sbx_c" && d == "/workspace", fun _ => false⟩

/-- A trivial exec oracle for witnesses: every exec returns empty streams and
exit code 0. -/
def demoExec : OrbStackBackend.ExecCall → OrbStackBackend.ExecOutcome :=
  fun _ => ⟨none, none, 0⟩

/-! ## Claim theorems -/

/-- C5 (counterexample to the claim; the code is the slip): translating the
legacy path `/workspace/foo` for sandbox `sbx_a` (workspace `/ws/sbx_a`)
yields the host path `/foo`, which does NOT lie underneath the workspace —
`path[10:]` keeps its leading slash, and `pathlib` joining with an absolute
right operand discards the workspace base.  A plain relative path, by
contrast, is translated underneath the workspace as intended. -/
theorem C5_path_escape :
    TmuxBackend.get_full_path demoLive demoCfg "sbx_a" "/workspace/foo" = "/foo"
    ∧ isUnderDir "/ws/sbx_a" "/foo" = false
    ∧ TmuxBackend.get_full_path demoLive demoCfg "sbx_a" "data/a.txt" =
        "/ws/sbx_a/data/a.txt"
    ∧ isUnderDir "/ws/sbx_a" "/ws/sbx_a/data/a.txt" = true := by
  decide

/-- C3 (the code ignores its timeout; the claim matches the documented
intent): `OrbStackBackend.run_command` produces the same result and state
for any two timeout arguments, because the timeout is never forwarded to the
runtime's exec call — so a long-running command is not capped at the
supplied timeout. -/
theorem C3_timeout_unused (st : OrbState) (id command : String)
    (cwd : Option String) (envs : List (String × String)) (shell : Bool)
    (exec : OrbStackBackend.ExecCall → OrbStackBackend.ExecOutcome)
    (t1 t2 : Option Nat) :
    OrbStackBackend.run_command st id command cwd envs t1 shell exec =
      OrbStackBackend.run_command st id command cwd envs t2 shell exec := rfl

/-- C10: once an instance is cached under a backend name, `create_backend`
with caching enabled returns exactly that cached instance for ANY
configuration — the factory state (including the construction counter) is
untouched, so nothing is constructed or validated — and only `clear_cache`
empties the cache. -/
theorem C10_factory_cache
    (st : FactoryState) (name : String) (inst : BackendInstance)
    (cfg2 : List (String × String))
    (h : st.instances.lookup (asciiLower name) = some inst) :
    BackendFactory.create_backend st name cfg2 true = (.ok inst, st)
    ∧ (BackendFactory.clear_cache st).instances.lookup (asciiLower name) = none := by
  constructor
  · unfold BackendFactory.create_backend
    simp [h]
  · simp [BackendFactory.clear_cache, List.lookup]

/-- C10 witness: a factory with `tmux` cached returns the cached instance
for the name `TMUX` and a fresh configuration. -/
theorem C10_factory_cache_witness :
    (FactoryState.mk [] [("tmux", ⟨3, "tmux", [("a", "b")]⟩)] 5).instances.lookup
        (asciiLower "TMUX") = some ⟨3, "tmux", [("a", "b")]⟩
    ∧ (BackendFactory.create_backend
          (FactoryState.mk [] [("tmux", ⟨3, "tmux", [("a", "b")]⟩)] 5)
          "TMUX" [("fresh", "config")] true =
        (.ok ⟨3, "tmux", [("a", "b")]⟩,
          FactoryState.mk [] [("tmux", ⟨3, "tmux", [("a", "b")]⟩)] 5)
      ∧ (BackendFactory.clear_cache
            (FactoryState.mk [] [("tmux", ⟨3, "tmux", [("a", "b")]⟩)] 5)).instances.lookup
          (asciiLower "TMUX") = none) :=
  ⟨by decide,
    C10_factory_cache (FactoryState.mk [] [("tmux", ⟨3, "tmux", [("a", "b")]⟩)] 5)
      "TMUX" ⟨3, "tmux", [("a", "b")]⟩ [("fresh", "config")] (by decide)⟩

/-- C1 counterexample: on the terminal backend, `write_file` with a sandbox
id unknown to the backend does NOT fail with a not-found condition — it
succeeds, and it mutates host state (a file appears under the derived
default workspace path), refuting "checked before any mutating side
effect". -/
theorem C1_counterexample :
    TmuxBackend.session_exists demoEmpty "ghost" = false
    ∧ (TmuxBackend.write_file demoEmpty demoCfg "ghost" "a.txt" "hi").1.isOk = true
    ∧ ((TmuxBackend.write_file demoEmpty demoCfg "ghost" "a.txt" "hi").2).hostFiles
        "/ws/ghost/a.txt" = some (strEncode "hi")
    ∧ demoEmpty.hostFiles "/ws/ghost/a.txt" = none := by
  refine ⟨by decide, by decide, ?_, rfl⟩
  show (if ("/ws/ghost/a.txt" : String) = "/ws/ghost/a.txt"
      then some (strEncode "hi") else none) = some (strEncode "hi")
  rw [if_pos rfl]

/-- C1 (amended): operations that resolve the sandbox first do fail with
not-found before any side effect when the id is unknown — on the terminal
backend `run_command` and `get_sandbox_info` (state returned unchanged), and
on the container backend `run_command`, `write_file_bytes` and
`read_file_bytes` (state returned unchanged), while its `kill_sandbox`
signals the unknown id by returning `False`.  But the terminal backend's
file operations perform no existence check at all: `read_file`/`write_file`
never produce a not-found error for an unknown id (they operate under the
derived default workspace path), and its `kill_sandbox` returns `True`
without any check. -/
theorem C1_amended_not_found_checks
    (st : TmuxState) (cfg : TmuxConfig) (ost : OrbState) (ocfg : OrbConfig)
    (id pathr pathw content marker : String) (snaps : List (Option String))
    (idc pathc : String) (data : List Nat)
    (cwd : Option String) (envs : List (String × String)) (t : Option Nat) (sh : Bool)
    (exec : OrbStackBackend.ExecCall → OrbStackBackend.ExecOutcome)
    (h1 : TmuxBackend.session_exists st id = false)
    (h2 : ost.active.contains idc = false)
    (h3 : ost.docker.lookup idc = none) :
    TmuxBackend.run_command st cfg id marker snaps =
      (.error (.notFound ("Session not found: " ++ id)), st)
    ∧ TmuxBackend.get_sandbox_info st cfg id =
        .error (.notFound ("Session not found: " ++ id))
    ∧ (∀ e, TmuxBackend.read_file st cfg id pathr = .error e → e.isNotFound = false)
    ∧ (∀ e, (TmuxBackend.write_file st cfg id pathw content).1 = .error e →
        e.isNotFound = false)
    ∧ (TmuxBackend.kill_sandbox st cfg id).1 = true
    ∧ OrbStackBackend.run_command ost idc content cwd envs t sh exec =
        (.error (.notFound ("Container not found: " ++ idc)), ost)
    ∧ OrbStackBackend.write_file_bytes ost idc pathc data =
        (.error (.notFound ("Container not found: " ++ idc)), ost)
    ∧ OrbStackBackend.read_file_bytes ost idc pathc =
        .error (.notFound ("Container not found: " ++ idc))
    ∧ OrbStackBackend.kill_sandbox ost ocfg idc = (false, ost) := by
  have hg : OrbStackBackend.get_container ost idc =
      .error (.notFound ("Container not found: " ++ idc)) := by
    unfold OrbStackBackend.get_container
    rw [if_neg (by rw [h2]; simp), if_neg (by rw [h3]; simp)]
  refine ⟨?_, ?_, ?_, ?_, ?_, ?_, ?_, ?_, ?_⟩
  · simp [TmuxBackend.run_command, h1]
  · simp [TmuxBackend.get_sandbox_info, h1]
  · intro e he
    simp only [TmuxBackend.read_file] at he
    cases hf : st.hostFiles (TmuxBackend.get_full_path st cfg id pathr) with
    | some bs =>
      rw [hf] at he
      simp only [] at he
      cases hd : strDecode bs with
      | some s => rw [hd] at he; cases he
      | none => rw [hd] at he; injection he with he; rw [← he]; rfl
    | none =>
      rw [hf] at he
      simp only [] at he
      by_cases hdir : st.hostDirs (TmuxBackend.get_full_path st cfg id pathr) = true
      · rw [if_pos hdir] at he
        injection he with he
        rw [← he]
        rfl
      · rw [if_neg hdir] at he
        injection he with he
        rw [← he]
        rfl
  · intro e he
    simp only [TmuxBackend.write_file] at he
    by_cases hdir : st.hostDirs (TmuxBackend.get_full_path st cfg id pathw) = true
    · rw [if_pos hdir] at he
      injection he with he
      rw [← he]
      rfl
    · rw [if_neg hdir] at he
      cases he
  · rfl
  · simp [OrbStackBackend.run_command, hg]
  · simp [OrbStackBackend.write_file_bytes, hg]
  · simp [OrbStackBackend.read_file_bytes, hg]
  · simp [OrbStackBackend.kill_sandbox, hg]

/-- C1 witness: the amended statement instantiated at the empty terminal
state and an OrbStack state with no container named `nope`. -/
theorem C1_amended_witness :
    TmuxBackend.session_exists demoEmpty "ghost" = false
    ∧ demoOrb.active.contains "nope" = false
    ∧ demoOrb.docker.lookup "nope" = none
    ∧ (TmuxBackend.run_command demoEmpty demoCfg "ghost" "MRK" [] =
        (.error (.notFound ("Session not found: " ++ "ghost")), demoEmpty)
      ∧ TmuxBackend.get_sandbox_info demoEmpty demoCfg "ghost" =
          .error (.notFound ("Session not found: " ++ "ghost"))
      ∧ (∀ e, TmuxBackend.read_file demoEmpty demoCfg "ghost" "r.txt" = .error e →
          e.isNotFound = false)
      ∧ (∀ e, (TmuxBackend.write_file demoEmpty demoCfg "ghost" "w.txt" "hi").1 = .error e →
          e.isNotFound = false)
      ∧ (TmuxBackend.kill_sandbox demoEmpty demoCfg "ghost").1 = true
      ∧ OrbStackBackend.run_command demoOrb "nope" "hi" none [] (some 5) true demoExec =
          (.error (.notFound ("Container not found: " ++ "nope")), demoOrb)
      ∧ OrbStackBackend.write_file_bytes demoOrb "nope" "/tmp/x" [104] =
          (.error (.notFound ("Container not found: " ++ "nope")), demoOrb)
      ∧ OrbStackBackend.read_file_bytes demoOrb "nope" "/tmp/x" =
          .error (.notFound ("Container not found: " ++ "nope"))
      ∧ OrbStackBackend.kill_sandbox demoOrb demoOrbCfg "nope" = (false, demoOrb)) :=
  ⟨by decide, by decide, by decide,
    C1_amended_not_found_checks demoEmpty demoCfg demoOrb demoOrbCfg
      "ghost" "r.txt" "w.txt" "hi" "MRK" [] "nope" "/tmp/x" [104]
      none [] (some 5) true demoExec (by decide) (by decide) (by decide)⟩

/-- C2 counterexample: a foreground run whose capture file reads
`"hello \nMRK127 extra\n"` with exit marker `MRK`.  The captured text before
the marker is `"hello \n"`, and the text after it is unparseable as a whole
integer, so the claim predicts the result `⟨"hello \n", "", 0⟩`; the code
strips the output and parses only the first whitespace token after the
marker, returning `⟨"hello", "", 127⟩`. -/
theorem C2_counterexample :
    ((TmuxBackend.run_command demoLive demoCfg "sbx_a" "MRK"
        [some "hello \nMRK127 extra\n"]).1).toOption =
      some ⟨"hello", "", 127, none⟩
    ∧ ((TmuxBackend.run_command demoLive demoCfg "sbx_a" "MRK"
        [some "hello \nMRK127 extra\n"]).1).toOption ≠
      some ⟨"hello \n", "", 0, none⟩
    ∧ part0 ("hello \nMRK127 extra\n").data ("MRK").data = ("hello \n").data
    ∧ pyInt "127 extra" = none := by
  decide

/-- C2 (amended): for a foreground `run_command` on an existing terminal
sandbox, (a) if no polled snapshot of the capture file ever contains the
exit marker, the result is `⟨"", "", -1⟩`; (b) if a snapshot containing the
marker is reached, the result is the parse of the first such snapshot:
stderr is empty, stdout is the captured text before the first occurrence of
the marker with surrounding whitespace stripped, and the exit code is the
first whitespace-delimited token after the marker parsed as a Python
integer (0 when the token is missing or unparseable) — and the text before
the marker really is a decomposition of the captured content. -/
theorem C2_amended_parse
    (st : TmuxState) (cfg : TmuxConfig) (id marker content : String)
    (snaps pre rest : List (Option String))
    (hid : TmuxBackend.session_exists st id = true) :
    ((∀ c : String, some c ∈ snaps → hasSub marker.data c.data = false) →
      (TmuxBackend.run_command st cfg id marker snaps).1 = .ok ⟨"", "", -1, none⟩)
    ∧ ((∀ c : String, some c ∈ pre → hasSub marker.data c.data = false) →
        hasSub marker.data content.data = true →
        (TmuxBackend.run_command st cfg id marker (pre ++ some content :: rest)).1 =
          .ok ⟨(TmuxBackend.parseCaptured content marker).1, "",
               (TmuxBackend.parseCaptured content marker).2, none⟩
        ∧ (TmuxBackend.parseCaptured content marker).1 =
            pyStrip ⟨part0 content.data marker.data⟩
        ∧ (TmuxBackend.parseCaptured content marker).2 =
            (match firstTok (stripL (part1 content.data marker.data)) with
             | none => (0 : Int)
             | some tk => (pyInt ⟨tk⟩).getD 0)
        ∧ ∃ post, part0 content.data marker.data ++ marker.data ++ post = content.data) := by
  constructor
  · intro hall
    simp [TmuxBackend.run_command, hid, pollRun_all_clean hall]
  · intro hpre hc
    refine ⟨?_, rfl, ?_, ?_⟩
    · simp [TmuxBackend.run_command, hid, pollRun_first_hit hpre hc]
    · show (match firstTok (stripL (part1 content.data marker.data)) with
          | none => (0 : Int)
          | some tk =>
            match pyInt ⟨tk⟩ with
            | some k => k
            | none => 0) = _
      cases hft : firstTok (stripL (part1 content.data marker.data)) with
      | none => rfl
      | some tk =>
        cases hpi : pyInt ⟨tk⟩ with
        | none => simp [hpi, Option.getD]
        | some k => simp [hpi, Option.getD]
    · rw [hasSub] at hc
      cases hb : breakAt marker.data content.data with
      | none => rw [hb] at hc; cases hc
      | some pq =>
        obtain ⟨p, q⟩ := pq
        refine ⟨q, ?_⟩
        have hd := breakAt_decomp hb
        have hp0 : part0 content.data marker.data = p := by
          unfold part0
          rw [hb]
        rw [hp0]
        exact hd

/-- C2 witness: the amended statement instantiated at the live demo sandbox,
marker `MRK`, a clean first snapshot and a hit `"ok MRK0\n"`. -/
theorem C2_amended_witness :
    TmuxBackend.session_exists demoLive "sbx_a" = true
    ∧ (((∀ c : String, some c ∈ [(none : Option String)] →
          hasSub ("MRK" : String).data c.data = false) →
        (TmuxBackend.run_command demoLive demoCfg "sbx_a" "MRK" [none]).1 =
          .ok ⟨"", "", -1, none⟩)
      ∧ ((∀ c : String, some c ∈ [(none : Option String)] →
            hasSub ("MRK" : String).data c.data = false) →
          hasSub ("MRK" : String).data ("ok MRK0\n" : String).data = true →
          (TmuxBackend.run_command demoLive demoCfg "sbx_a" "MRK"
              ([none] ++ some "ok MRK0\n" :: [])).1 =
            .ok ⟨(TmuxBackend.parseCaptured "ok MRK0\n" "MRK").1, "",
                 (TmuxBackend.parseCaptured "ok MRK0\n" "MRK").2, none⟩
          ∧ (TmuxBackend.parseCaptured "ok MRK0\n" "MRK").1 =
              pyStrip ⟨part0 ("ok MRK0\n" : String).data ("MRK" : String).data⟩
          ∧ (TmuxBackend.parseCaptured "ok MRK0\n" "MRK").2 =
              (match firstTok (stripL (part1 ("ok MRK0\n" : String).data
                  ("MRK" : String).data)) with
               | none => (0 : Int)
               | some tk => (pyInt ⟨tk⟩).getD 0)
          ∧ ∃ post, part0 ("ok MRK0\n" : String).data ("MRK" : String).data ++
              ("MRK" : String).data ++ post = ("ok MRK0\n" : String).data)) :=
  ⟨by decide,
    C2_amended_parse demoLive demoCfg "sbx_a" "MRK" "ok MRK0\n"
      [none] [none] [] (by decide)⟩

/-- C4 counterexample: on the terminal backend, killing the live sandbox
`sbx_a` twice returns `True` both times — the second call does not return
`False` as the claim requires, because `kill-session` failures are ignored
and every cleanup step is conditional. -/
theorem C4_counterexample :
    (TmuxBackend.kill_sandbox demoLive demoCfg "sbx_a").1 = true
    ∧ (TmuxBackend.kill_sandbox
        (TmuxBackend.kill_sandbox demoLive demoCfg "sbx_a").2 demoCfg "sbx_a").1 ≠ false := by
  decide

/-- C4 (amended): double-kill behaviour differs per backend.  On the
container backend, killing an existing container returns `True` and a
second kill of the same id returns `False` (not an exception), as claimed;
on the terminal backend, `kill_sandbox` returns `True` both times. -/
theorem C4_amended_kill_twice
    (st : TmuxState) (cfg : TmuxConfig) (id : String)
    (ost : OrbState) (ocfg : OrbConfig) (idc : String)
    (h : (ost.docker.lookup idc).isSome = true) :
    (TmuxBackend.kill_sandbox st cfg id).1 = true
    ∧ (TmuxBackend.kill_sandbox (TmuxBackend.kill_sandbox st cfg id).2 cfg id).1 = true
    ∧ (OrbStackBackend.kill_sandbox ost ocfg idc).1 = true
    ∧ (OrbStackBackend.kill_sandbox
        (OrbStackBackend.kill_sandbox ost ocfg idc).2 ocfg idc).1 = false := by
  obtain ⟨c, hc⟩ : ∃ c, ost.docker.lookup idc = some c := by
    cases hl : ost.docker.lookup idc with
    | none => rw [hl] at h; cases h
    | some c => exact ⟨c, rfl⟩
  have hg : OrbStackBackend.get_container ost idc = .ok idc := by
    unfold OrbStackBackend.get_container
    by_cases ha : ost.active.contains idc = true
    · rw [if_pos ha]
    · rw [if_neg ha, if_pos (by rw [hc]; rfl)]
  refine ⟨rfl, rfl, ?_, ?_⟩
  · simp [OrbStackBackend.kill_sandbox, hg, hc]
  · set st2 := (OrbStackBackend.kill_sandbox ost ocfg idc).2 with hst2
    have hact : st2.active = ost.active.filter (fun s => s != idc) := by
      rw [hst2]
      simp only [OrbStackBackend.kill_sandbox, hg, hc]
      cases hb : ocfg.cleanup_workspace <;> simp
    have hdock : st2.docker = ost.docker.filter (fun kv => kv.1 != idc) := by
      rw [hst2]
      simp only [OrbStackBackend.kill_sandbox, hg, hc]
      cases hb : ocfg.cleanup_workspace <;> simp
    have hg2 : OrbStackBackend.get_container st2 idc =
        .error (.notFound ("Container not found: " ++ idc)) := by
      unfold OrbStackBackend.get_container
      rw [if_neg (by rw [hact]; simp [contains_filter_ne]),
        if_neg (by rw [hdock, lookup_filter_ne]; simp)]
    simp only [OrbStackBackend.kill_sandbox, hg2]

/-- C4 witness: the amended statement at the live demo states. -/
theorem C4_amended_witness :
    (demoOrb.docker.lookup "sbx_c").isSome = true
    ∧ ((TmuxBackend.kill_sandbox demoLive demoCfg "sbx_a").1 = true
      ∧ (TmuxBackend.kill_sandbox
          (TmuxBackend.kill_sandbox demoLive demoCfg "sbx_a").2 demoCfg "sbx_a").1 = true
      ∧ (OrbStackBackend.kill_sandbox demoOrb demoOrbCfg "sbx_c").1 = true
      ∧ (OrbStackBackend.kill_sandbox
          (OrbStackBackend.kill_sandbox demoOrb demoOrbCfg "sbx_c").2 demoOrbCfg "sbx_c").1 =
        false) :=
  ⟨by decide,
    C4_amended_kill_twice demoLive demoCfg "sbx_a" demoOrb demoOrbCfg "sbx_c" (by decide)⟩

/-- After a tmux `kill_sandbox`, the session is gone from the server
(whatever the cleanup configuration). -/
theorem tmux_kill_removes_session (st : TmuxState) (cfg : TmuxConfig) (id : String) :
    ((TmuxBackend.kill_sandbox st cfg id).2).tmuxSessions =
      st.tmuxSessions.filter (fun s => s != id) := by
  simp only [TmuxBackend.kill_sandbox]
  cases hb : cfg.cleanup_workspace <;> simp [TmuxBackend.removeTree]

/-- A foreground `run_command` never changes the set of live sessions. -/
theorem tmux_run_preserves_sessions (st : TmuxState) (cfg : TmuxConfig)
    (id marker : String) (snaps : List (Option String)) :
    ((TmuxBackend.run_command st cfg id marker snaps).2).tmuxSessions =
      st.tmuxSessions := by
  simp only [TmuxBackend.run_command]
  split <;> rfl

/-- Host path translation only depends on the session metadata, so any
operation that leaves `sessions` alone leaves the translation alone. -/
theorem get_full_path_state_irrel (st' st : TmuxState) (cfg : TmuxConfig)
    (id p : String) (hs : st'.sessions = st.sessions) :
    TmuxBackend.get_full_path st' cfg id p = TmuxBackend.get_full_path st cfg id p := by
  unfold TmuxBackend.get_full_path TmuxBackend.workspaceOf
  rw [hs]

/-- `write_file_bytes` leaves the session metadata untouched. -/
theorem tmux_write_bytes_sessions (st : TmuxState) (cfg : TmuxConfig)
    (id path : String) (data : List Nat) :
    ((TmuxBackend.write_file_bytes st cfg id path data).2).sessions = st.sessions := by
  simp only [TmuxBackend.write_file_bytes]
  split <;> rfl

/-- `write_file` leaves the session metadata untouched. -/
theorem tmux_write_sessions (st : TmuxState) (cfg : TmuxConfig)
    (id path content : String) :
    ((TmuxBackend.write_file st cfg id path content).2).sessions = st.sessions := by
  simp only [TmuxBackend.write_file]
  split <;> rfl

/-- Byte round trip on the terminal backend. -/
theorem tmux_roundtrip_bytes (st : TmuxState) (cfg : TmuxConfig)
    (id path : String) (data : List Nat)
    (h : st.hostDirs (TmuxBackend.get_full_path st cfg id path) = false) :
    TmuxBackend.read_file_bytes
      (TmuxBackend.write_file_bytes st cfg id path data).2 cfg id path = .ok data := by
  have hfp := get_full_path_state_irrel _ st cfg id path
    (tmux_write_bytes_sessions st cfg id path data)
  have hf : ((TmuxBackend.write_file_bytes st cfg id path data).2).hostFiles
      (TmuxBackend.get_full_path st cfg id path) = some data := by
    simp [TmuxBackend.write_file_bytes, h]
  simp only [TmuxBackend.read_file_bytes]
  rw [hfp, hf]

/-- The universal-newline worker is the identity on carriage-return free
text (given enough fuel). -/
theorem univNLGo_id {l : List Char} (h : '\r' ∉ l) :
    ∀ fuel : Nat, l.length ≤ fuel → TmuxBackend.univNLGo fuel l = l := by
  induction l with
  | nil =>
    intro fuel _
    cases fuel <;> rfl
  | cons c rest ih =>
    intro fuel hf
    cases fuel with
    | zero => simp at hf
    | succ f =>
      have hc : ¬ (c = '\r') := fun he => h (List.mem_cons.mpr (Or.inl he.symm))
      rw [TmuxBackend.univNLGo, if_neg hc,
        ih (fun hm => h (List.mem_cons_of_mem _ hm)) f (by simp at hf; omega)]

/-- The universal-newline translation is the identity on carriage-return
free text. -/
theorem univNewlines_id {l : List Char} (h : '\r' ∉ l) :
    TmuxBackend.univNewlines l = l :=
  univNLGo_id h l.length (Nat.le_refl _)

/-- Text round trip on the terminal backend, in general: reading back a
written text returns it with the universal-newline translation applied. -/
theorem tmux_roundtrip_text (st : TmuxState) (cfg : TmuxConfig)
    (id path content : String)
    (h : st.hostDirs (TmuxBackend.get_full_path st cfg id path) = false) :
    TmuxBackend.read_file
      (TmuxBackend.write_file st cfg id path content).2 cfg id path =
      .ok ⟨TmuxBackend.univNewlines content.data⟩ := by
  have hfp := get_full_path_state_irrel _ st cfg id path
    (tmux_write_sessions st cfg id path content)
  have hf : ((TmuxBackend.write_file st cfg id path content).2).hostFiles
      (TmuxBackend.get_full_path st cfg id path) = some (strEncode content) := by
    simp [TmuxBackend.write_file, h]
  simp only [TmuxBackend.read_file]
  rw [hfp, hf]
  simp [strDecode_strEncode]

/-- Exact text round trip on the terminal backend for carriage-return free
content. -/
theorem tmux_roundtrip_text_noCR (st : TmuxState) (cfg : TmuxConfig)
    (id path content : String)
    (h : st.hostDirs (TmuxBackend.get_full_path st cfg id path) = false)
    (hcr : '\r' ∉ content.data) :
    TmuxBackend.read_file
      (TmuxBackend.write_file st cfg id path content).2 cfg id path = .ok content := by
  rw [tmux_roundtrip_text st cfg id path content h, univNewlines_id hcr]

/-- Byte round trip on the container backend (target directory existing). -/
theorem orb_roundtrip_bytes (ost : OrbState) (idc pathc : String) (datac : List Nat)
    (h : OrbStackBackend.get_container ost idc = .ok idc)
    (hdir : ost.containerDirs idc (OrbStackBackend.archiveKey pathc).1 = true) :
    OrbStackBackend.read_file_bytes
      (OrbStackBackend.write_file_bytes ost idc pathc datac).2 idc pathc = .ok datac := by
  simp only [OrbStackBackend.write_file_bytes, h, hdir, if_true]
  have h2 : OrbStackBackend.get_container
      { ost with containerFS := fun c k =>
          if c = idc ∧ k = OrbStackBackend.archiveKey pathc then some datac
          else ost.containerFS c k } idc = .ok idc := h
  simp [OrbStackBackend.read_file_bytes, h2]

/-- Text round trip on the container backend: exact, since the byte channel
plus `bytes.decode("utf-8")` involves no newline translation. -/
theorem orb_roundtrip_text (ost : OrbState) (idc pathc contentc : String)
    (h : OrbStackBackend.get_container ost idc = .ok idc)
    (hdir : ost.containerDirs idc (OrbStackBackend.archiveKey pathc).1 = true) :
    OrbStackBackend.read_file
      (OrbStackBackend.write_file ost idc pathc contentc).2 idc pathc = .ok contentc := by
  have hb := orb_roundtrip_bytes ost idc pathc (strEncode contentc) h hdir
  simp only [OrbStackBackend.write_file]
  simp [OrbStackBackend.read_file, hb, strDecode_strEncode]

/-- C7 counterexample: on the terminal backend, writing the text
`"a\r\nb"` and reading it back returns `"a\nb"`, not the written content —
`Path.read_text()`'s universal-newline mode translates `"\r\n"` (and lone
`"\r"`) to `"\n"`, so the text round trip is not exact for every content
value. -/
theorem C7_counterexample :
    (TmuxBackend.read_file
      (TmuxBackend.write_file demoLive demoCfg "sbx_a" "t.txt" "a\r\nb").2
      demoCfg "sbx_a" "t.txt").toOption = some "a\nb"
    ∧ ("a\nb" : String) ≠ "a\r\nb" := by
  decide

/-- C7 (amended): `write_file_bytes` followed by `read_file_bytes` returns
exactly the written bytes on both backends, and `write_file` followed by
`read_file` returns exactly the written text on the container backend; on
the terminal backend the text read back is the written content with the
universal-newline translation applied, which equals the content exactly
when it contains no carriage return.  Side conditions: the terminal target
path is not an existing directory, the container id resolves, and the
container path names a file inside an existing directory (`put_archive`
fails otherwise). -/
theorem C7_amended_roundtrip
    (st : TmuxState) (cfg : TmuxConfig) (id path content : String) (data : List Nat)
    (ost : OrbState) (idc pathc contentc : String) (datac : List Nat)
    (h1 : st.hostDirs (TmuxBackend.get_full_path st cfg id path) = false)
    (h2 : OrbStackBackend.get_container ost idc = .ok idc)
    (h3 : pyBasename pathc ≠ "")
    (h4 : ost.containerDirs idc (OrbStackBackend.archiveKey pathc).1 = true)
    (h5 : '\r' ∉ content.data) :
    (∀ c2 : String, TmuxBackend.read_file
        (TmuxBackend.write_file st cfg id path c2).2 cfg id path =
        .ok ⟨TmuxBackend.univNewlines c2.data⟩)
    ∧ TmuxBackend.read_file
        (TmuxBackend.write_file st cfg id path content).2 cfg id path = .ok content
    ∧ TmuxBackend.read_file_bytes
        (TmuxBackend.write_file_bytes st cfg id path data).2 cfg id path = .ok data
    ∧ OrbStackBackend.read_file
        (OrbStackBackend.write_file ost idc pathc contentc).2 idc pathc = .ok contentc
    ∧ OrbStackBackend.read_file_bytes
        (OrbStackBackend.write_file_bytes ost idc pathc datac).2 idc pathc = .ok datac :=
  ⟨fun c2 => tmux_roundtrip_text st cfg id path c2 h1,
    tmux_roundtrip_text_noCR st cfg id path content h1 h5,
    tmux_roundtrip_bytes st cfg id path data h1,
    orb_roundtrip_text ost idc pathc contentc h2 h4,
    orb_roundtrip_bytes ost idc pathc datac h2 h4⟩

/-- C7 witness: the amended round trips at the live demo sandboxes, with a
multi-byte carriage-return-free text payload exercising the UTF-8 codec and
a container path inside the existing `/workspace` directory. -/
theorem C7_amended_witness :
    demoLive.hostDirs (TmuxBackend.get_full_path demoLive demoCfg "sbx_a" "d/t.txt") = false
    ∧ OrbStackBackend.get_container demoOrb "sbx_c" = .ok "sbx_c"
    ∧ pyBasename "/workspace/t.bin" ≠ ""
    ∧ demoOrb.containerDirs "sbx_c" (OrbStackBackend.archiveKey "/workspace/t.bin").1 = true
    ∧ '\r' ∉ ("héllo" : String).data
    ∧ ((∀ c2 : String, TmuxBackend.read_file
          (TmuxBackend.write_file demoLive demoCfg "sbx_a" "d/t.txt" c2).2
          demoCfg "sbx_a" "d/t.txt" = .ok ⟨TmuxBackend.univNewlines c2.data⟩)
      ∧ TmuxBackend.read_file
          (TmuxBackend.write_file demoLive demoCfg "sbx_a" "d/t.txt" "héllo").2
          demoCfg "sbx_a" "d/t.txt" = .ok "héllo"
      ∧ TmuxBackend.read_file_bytes
          (TmuxBackend.write_file_bytes demoLive demoCfg "sbx_a" "d/t.txt" [0, 255]).2
          demoCfg "sbx_a" "d/t.txt" = .ok [0, 255]
      ∧ OrbStackBackend.read_file
          (OrbStackBackend.write_file demoOrb "sbx_c" "/workspace/t.bin" "héllo").2
          "sbx_c" "/workspace/t.bin" = .ok "héllo"
      ∧ OrbStackBackend.read_file_bytes
          (OrbStackBackend.write_file_bytes demoOrb "sbx_c" "/workspace/t.bin" [0, 255]).2
          "sbx_c" "/workspace/t.bin" = .ok [0, 255]) :=
  ⟨rfl, rfl, by decide, by decide, by decide,
    C7_amended_roundtrip demoLive demoCfg "sbx_a" "d/t.txt" "héllo" [0, 255]
      demoOrb "sbx_c" "/workspace/t.bin" "héllo" [0, 255]
      rfl rfl (by decide) (by decide) (by decide)⟩

/-- C6: immediately after a successful `kill_sandbox`, `is_sandbox_running`
is false and both `get_sandbox_info` and `run_command` on the same id fail
with a not-found condition, on both backends. -/
theorem C6_kill_then_not_found
    (st : TmuxState) (cfg : TmuxConfig) (id marker : String)
    (snaps : List (Option String))
    (ost : OrbState) (ocfg : OrbConfig) (idc command : String)
    (cwd : Option String) (envs : List (String × String)) (t : Option Nat) (sh : Bool)
    (exec : OrbStackBackend.ExecCall → OrbStackBackend.ExecOutcome)
    (h1 : (TmuxBackend.kill_sandbox st cfg id).1 = true)
    (h2 : (OrbStackBackend.kill_sandbox ost ocfg idc).1 = true) :
    TmuxBackend.is_sandbox_running (TmuxBackend.kill_sandbox st cfg id).2 id = false
    ∧ TmuxBackend.get_sandbox_info (TmuxBackend.kill_sandbox st cfg id).2 cfg id =
        .error (.notFound ("Session not found: " ++ id))
    ∧ (TmuxBackend.run_command (TmuxBackend.kill_sandbox st cfg id).2 cfg id
        marker snaps).1 = .error (.notFound ("Session not found: " ++ id))
    ∧ OrbStackBackend.is_sandbox_running
        (OrbStackBackend.kill_sandbox ost ocfg idc).2 idc = .ok false
    ∧ OrbStackBackend.get_sandbox_info
        (OrbStackBackend.kill_sandbox ost ocfg idc).2 idc =
        .error (.notFound ("Container not found: " ++ idc))
    ∧ (OrbStackBackend.run_command (OrbStackBackend.kill_sandbox ost ocfg idc).2 idc
        command cwd envs t sh exec).1 =
        .error (.notFound ("Container not found: " ++ idc)) := by
  have hex : TmuxBackend.session_exists (TmuxBackend.kill_sandbox st cfg id).2 id = false := by
    rw [TmuxBackend.session_exists, tmux_kill_removes_session]
    exact contains_filter_ne _ _
  have horb : OrbStackBackend.get_container
      (OrbStackBackend.kill_sandbox ost ocfg idc).2 idc =
      .error (.notFound ("Container not found: " ++ idc)) := by
    cases hgo : OrbStackBackend.get_container ost idc with
    | error e =>
      exfalso
      simp only [OrbStackBackend.kill_sandbox, hgo] at h2
      cases h2
    | ok cid =>
      have hcid := get_container_ok hgo
      subst hcid
      cases hl : ost.docker.lookup cid with
      | none =>
        exfalso
        simp only [OrbStackBackend.kill_sandbox, hgo, hl] at h2
        cases h2
      | some c =>
        have hact : ((OrbStackBackend.kill_sandbox ost ocfg cid).2).active =
            ost.active.filter (fun s => s != cid) := by
          simp only [OrbStackBackend.kill_sandbox, hgo, hl]
          cases hb : ocfg.cleanup_workspace <;> simp
        have hdock : ((OrbStackBackend.kill_sandbox ost ocfg cid).2).docker =
            ost.docker.filter (fun kv => kv.1 != cid) := by
          simp only [OrbStackBackend.kill_sandbox, hgo, hl]
          cases hb : ocfg.cleanup_workspace <;> simp
        unfold OrbStackBackend.get_container
        rw [if_neg (by rw [hact]; simp [contains_filter_ne]),
          if_neg (by rw [hdock, lookup_filter_ne]; simp)]
  refine ⟨hex, ?_, ?_, ?_, ?_, ?_⟩
  · simp [TmuxBackend.get_sandbox_info, hex]
  · simp [TmuxBackend.run_command, hex]
  · simp [OrbStackBackend.is_sandbox_running, horb]
  · simp [OrbStackBackend.get_sandbox_info, horb]
  · simp [OrbStackBackend.run_command, horb]

/-- C6 witness: kill the live demo sandboxes and observe not-found on every
subsequent query. -/
theorem C6_kill_then_not_found_witness :
    (TmuxBackend.kill_sandbox demoLive demoCfg "sbx_a").1 = true
    ∧ (OrbStackBackend.kill_sandbox demoOrb demoOrbCfg "sbx_c").1 = true
    ∧ (TmuxBackend.is_sandbox_running
        (TmuxBackend.kill_sandbox demoLive demoCfg "sbx_a").2 "sbx_a" = false
      ∧ TmuxBackend.get_sandbox_info
          (TmuxBackend.kill_sandbox demoLive demoCfg "sbx_a").2 demoCfg "sbx_a" =
          .error (.notFound ("Session not found: " ++ "sbx_a"))
      ∧ (TmuxBackend.run_command (TmuxBackend.kill_sandbox demoLive demoCfg "sbx_a").2
          demoCfg "sbx_a" "MRK" []).1 =
          .error (.notFound ("Session not found: " ++ "sbx_a"))
      ∧ OrbStackBackend.is_sandbox_running
          (OrbStackBackend.kill_sandbox demoOrb demoOrbCfg "sbx_c").2 "sbx_c" = .ok false
      ∧ OrbStackBackend.get_sandbox_info
          (OrbStackBackend.kill_sandbox demoOrb demoOrbCfg "sbx_c").2 "sbx_c" =
          .error (.notFound ("Container not found: " ++ "sbx_c"))
      ∧ (OrbStackBackend.run_command (OrbStackBackend.kill_sandbox demoOrb demoOrbCfg "sbx_c").2
          "sbx_c" "echo hi" none [] (some 5) true demoExec).1 =
          .error (.notFound ("Container not found: " ++ "sbx_c"))) :=
  ⟨by decide, by decide,
    C6_kill_then_not_found demoLive demoCfg "sbx_a" "MRK" [] demoOrb demoOrbCfg
      "sbx_c" "echo hi" none [] (some 5) true demoExec (by decide) (by decide)⟩

/-- C9: terminal-backend `write_file`/`write_file_bytes` succeed even when
the parent directory chain of the target is absent — they first create every
missing ancestor directory — and the returned `FileInfo` reports the
written byte count as its size (for text, the length of the UTF-8 encoding
actually written to disk).  The only failure mode is the target path being
an existing directory. -/
theorem C9_write_creates_parents
    (st : TmuxState) (cfg : TmuxConfig) (id path content : String) (data : List Nat)
    (h : st.hostDirs (TmuxBackend.get_full_path st cfg id path) = false) :
    (TmuxBackend.write_file st cfg id path content).1 =
      .ok ⟨pyBasename (TmuxBackend.get_full_path st cfg id path),
           TmuxBackend.get_full_path st cfg id path, "file",
           (strEncode content).length, "644", none⟩
    ∧ (∀ d, (parentChain (TmuxBackend.get_full_path st cfg id path)).contains d = true →
        ((TmuxBackend.write_file st cfg id path content).2).hostDirs d = true)
    ∧ (TmuxBackend.write_file_bytes st cfg id path data).1 =
      .ok ⟨pyBasename (TmuxBackend.get_full_path st cfg id path),
           TmuxBackend.get_full_path st cfg id path, "file",
           data.length, "644", none⟩
    ∧ (∀ d, (parentChain (TmuxBackend.get_full_path st cfg id path)).contains d = true →
        ((TmuxBackend.write_file_bytes st cfg id path data).2).hostDirs d = true) := by
  refine ⟨?_, ?_, ?_, ?_⟩
  · simp [TmuxBackend.write_file, h]
  · intro d hd
    simp at hd
    simp [TmuxBackend.write_file, TmuxBackend.mkdirParents, h, hd]
  · simp [TmuxBackend.write_file_bytes, h]
  · intro d hd
    simp at hd
    simp [TmuxBackend.write_file_bytes, TmuxBackend.mkdirParents, h, hd]

/-- C9 witness: writing `a/b/c.txt` in the live demo sandbox creates the
missing directories `/ws/sbx_a/a/b`, `/ws/sbx_a/a`, … and reports size 2. -/
theorem C9_write_creates_parents_witness :
    demoLive.hostDirs (TmuxBackend.get_full_path demoLive demoCfg "sbx_a" "a/b/c.txt") = false
    ∧ ((TmuxBackend.write_file demoLive demoCfg "sbx_a" "a/b/c.txt" "hi").1 =
        .ok ⟨pyBasename (TmuxBackend.get_full_path demoLive demoCfg "sbx_a" "a/b/c.txt"),
             TmuxBackend.get_full_path demoLive demoCfg "sbx_a" "a/b/c.txt", "file",
             (strEncode "hi").length, "644", none⟩
      ∧ (∀ d, (parentChain (TmuxBackend.get_full_path demoLive demoCfg "sbx_a" "a/b/c.txt")).contains d = true →
          ((TmuxBackend.write_file demoLive demoCfg "sbx_a" "a/b/c.txt" "hi").2).hostDirs d = true)
      ∧ (TmuxBackend.write_file_bytes demoLive demoCfg "sbx_a" "a/b/c.txt" [104, 105]).1 =
        .ok ⟨pyBasename (TmuxBackend.get_full_path demoLive demoCfg "sbx_a" "a/b/c.txt"),
             TmuxBackend.get_full_path demoLive demoCfg "sbx_a" "a/b/c.txt", "file",
             ([104, 105] : List Nat).length, "644", none⟩
      ∧ (∀ d, (parentChain (TmuxBackend.get_full_path demoLive demoCfg "sbx_a" "a/b/c.txt")).contains d = true →
          ((TmuxBackend.write_file_bytes demoLive demoCfg "sbx_a" "a/b/c.txt" [104, 105]).2).hostDirs d = true)) :=
  ⟨rfl, C9_write_creates_parents demoLive demoCfg "sbx_a" "a/b/c.txt" "hi" [104, 105] rfl⟩

/-- C8: two sequential foreground `run_command` calls on the same live
terminal sandbox do not cross-contaminate.  The first call deletes the
per-sandbox capture file unconditionally before returning, so the second
call's polling window only ever observes snapshots of its own session text;
consequently any pattern absent from the second call's session text — in
particular the first call's high-entropy exit marker and the first call's
output — is absent from the second call's returned stdout. -/
theorem C8_no_cross_contamination
    (st : TmuxState) (cfg : TmuxConfig) (id m1 m2 pat call2Text : String)
    (snaps1 snaps2 : List (Option String))
    (hrun : TmuxBackend.session_exists st id = true)
    (hsnap : ∀ c : String, some c ∈ snaps2 → isInit c.data call2Text.data = true)
    (hfresh : hasSub pat.data call2Text.data = false) :
    ((TmuxBackend.run_command st cfg id m1 snaps1).2).captureFiles id = none
    ∧ ∀ r2, (TmuxBackend.run_command (TmuxBackend.run_command st cfg id m1 snaps1).2
        cfg id m2 snaps2).1 = .ok r2 →
        hasSub pat.data r2.stdout.data = false := by
  constructor
  · simp [TmuxBackend.run_command, hrun]
  · intro r2 hr2
    set st1 := (TmuxBackend.run_command st cfg id m1 snaps1).2 with hst1
    have hex1 : TmuxBackend.session_exists st1 id = true := by
      rw [hst1, TmuxBackend.session_exists, tmux_run_preserves_sessions]
      exact hrun
    simp only [TmuxBackend.run_command, hex1, Bool.not_true, Bool.false_eq_true,
      if_false] at hr2
    injection hr2 with hr2
    rw [← hr2]
    exact pollRun_no_leak hsnap hfresh

/-- C8 witness: a concrete two-call sequence — the first call's marker `M1`
does not occur in the second call's session text, so it does not occur in
the second call's stdout. -/
theorem C8_no_cross_contamination_witness :
    TmuxBackend.session_exists demoLive "sbx_a" = true
    ∧ (∀ c : String, some c ∈ [some ("hello M20" : String)] →
        isInit c.data ("hello M20" : String).data = true)
    ∧ hasSub ("M1" : String).data ("hello M20" : String).data = false
    ∧ (((TmuxBackend.run_command demoLive demoCfg "sbx_a" "M1" [some "out1 M10"]).2).captureFiles
        "sbx_a" = none
      ∧ ∀ r2, (TmuxBackend.run_command
          (TmuxBackend.run_command demoLive demoCfg "sbx_a" "M1" [some "out1 M10"]).2
          demoCfg "sbx_a" "M2" [some "hello M20"]).1 = .ok r2 →
          hasSub ("M1" : String).data r2.stdout.data = false) :=
  ⟨by decide,
    by
      intro c hc
      simp at hc
      subst hc
      decide,
    by decide,
    C8_no_cross_contamination demoLive demoCfg "sbx_a" "M1" "M2" "M1" "hello M20"
      [some "out1 M10"] [some "hello M20"] (by decide)
      (by
        intro c hc
        simp at hc
        subst hc
        decide)
      (by decide)⟩

end SandboxModel
